import Mathlib

/-!
Verification development for the `Desktop-Streamer` repository
(`src/desktopstreamer/desktopstreamer.py`).

The Python class `DesktopStreamer` mixes three concerns that we embed
separately, faithful to the source:

* a dynamically-typed settings object (`__setattr__`, `set_settings`,
  the `SETTINGS` table, `get_screensize`): modelled by `SVal` (Python
  values), `Obj` (the instance `__dict__` restricted to the six settings
  attributes), `pySetattr` and `set_settings`;
* the command builder (`setup`, built on `shlex.split(..., posix=False)`):
  modelled by `lexRun` / `shlexSplitNonPosix` and `setup`;
* the process supervisor (`start`, `stop`, `processes`,
  `running_processes`, `missing_commands`): modelled by `Proc`,
  `Streamer`, `start`, `stop` together with an explicit event trace
  (signals sent, sleeps, spawns).

External effects are passed in as explicit parameters: the detected
screen size (Tkinter) is a `Nat × Nat` argument, resolved command paths
(`which`) are `Option String` values, and freshly spawned process
handles are `Proc` arguments to `start`.
-/

/-- A dynamically-typed Python value as used by the settings machinery:
booleans, integers, strings or `None`. -/
inductive SVal : Type
  | b (b : Bool)
  | n (i : Int)
  | s (s : String)
  | none
deriving DecidableEq, Repr

/-- Python `==` on the values of `SVal` (`True == 1` and `False == 0`
hold in Python because `bool` is a subtype of `int`). -/
def pyEq : SVal → SVal → Bool
  | SVal.b x, SVal.b y => x == y
  | SVal.b x, SVal.n y => (if x then (1 : Int) else 0) == y
  | SVal.n x, SVal.b y => x == (if y then (1 : Int) else 0)
  | SVal.n x, SVal.n y => x == y
  | SVal.s x, SVal.s y => x == y
  | SVal.none, SVal.none => true
  | _, _ => false

/-- Python truthiness of an `SVal` (used by `if self.audio`,
`if cmd_avconv`, ...). -/
def truthy : SVal → Bool
  | SVal.b b => b
  | SVal.n i => i != 0
  | SVal.s s => s != ""
  | SVal.none => false

/-- Python `str()` of an `SVal`, as used by `str.format` substitution in
`DesktopStreamer.setup`. -/
def pyStr : SVal → String
  | SVal.b true => "True"
  | SVal.b false => "False"
  | SVal.n i => toString i
  | SVal.s s => s
  | SVal.none => "None"

/-- Python `int()` applied to an `SVal` (used by `__setattr__` for the
`framerate` and `port` attributes); `Option.none` models the `TypeError`
/ `ValueError` raised on unconvertible values. -/
def pyIntCast : SVal → Option Int
  | SVal.b b => some (if b then 1 else 0)
  | SVal.n i => some i
  | SVal.s s => s.toInt?
  | SVal.none => Option.none

/-- The instance `__dict__` of a `DesktopStreamer`, restricted to the six
settings attributes of the `SETTINGS` table.  `Option.none` in a field
means the attribute has not been set yet (reading it raises
`AttributeError`). -/
structure Obj : Type where
  audio : Option SVal
  video : Option SVal
  res_in : Option SVal
  res_out : Option SVal
  framerate : Option SVal
  port : Option SVal
deriving DecidableEq, Repr

/-- The object before any settings have been stored. -/
def emptyObj : Obj := ⟨Option.none, Option.none, Option.none, Option.none, Option.none, Option.none⟩

/-- Python `getattr(self, name)` on the settings attributes;
`Option.none` models `AttributeError`. -/
def pyGetattr (o : Obj) : String → Option SVal
  | "audio" => o.audio
  | "video" => o.video
  | "res_in" => o.res_in
  | "res_out" => o.res_out
  | "framerate" => o.framerate
  | "port" => o.port
  | _ => Option.none

/-- Plain dictionary write `self.__dict__[name] = value` for the six
settings attributes (only these names are ever passed by
`set_settings`). -/
def writeRaw (o : Obj) : String → SVal → Obj
  | "audio", v => { o with audio := some v }
  | "video", v => { o with video := some v }
  | "res_in", v => { o with res_in := some v }
  | "res_out", v => { o with res_out := some v }
  | "framerate", v => { o with framerate := some v }
  | "port", v => { o with port := some v }
  | _, _ => o

/-- `DesktopStreamer.get_screensize(as_string=True)`: the detected
screen size, formatted as a `"<width>x<height>"` string.  The width and
height (obtained from the windowing system in the source) are passed in
as the explicit parameter `scr`. -/
def get_screensize (scr : Nat × Nat) : String :=
  toString scr.1 ++ "x" ++ toString scr.2

/-- `DesktopStreamer.__setattr__`: stores attribute `name`, with the
special cases of the source — `res_in` set to `None` becomes the
detected screen size as a string, `res_out` set to `None` copies the
current `res_in` (raising `AttributeError` if `res_in` is unset, modelled
by `Option.none`), and `framerate` / `port` are cast with `int()`. -/
def pySetattr (scr : Nat × Nat) (o : Obj) (name : String) (v : SVal) : Option Obj :=
  if name = "res_in" ∧ v = SVal.none then
    some { o with res_in := some (SVal.s (get_screensize scr)) }
  else if name = "res_out" ∧ v = SVal.none then
    (pyGetattr o "res_in").map (fun r => { o with res_out := some r })
  else if name = "framerate" ∨ name = "port" then
    (pyIntCast v).map (fun i => writeRaw o name (SVal.n i))
  else
    some (writeRaw o name v)

/-- The `SETTINGS` table of the class: the six settings keys with their
default values, in source order. -/
def SETTINGS : List (String × SVal) :=
  [("audio", SVal.b true), ("video", SVal.b true),
   ("res_in", SVal.none), ("res_out", SVal.none),
   ("framerate", SVal.n 25), ("port", SVal.n 1312)]

/-- The keys of `SETTINGS`, in order. -/
def settingsKeys : List String := SETTINGS.map Prod.fst

/-- One loop iteration of `set_settings` for a key present in the
keyword arguments: compare with the current attribute (`AttributeError`
on a missing attribute takes the `except` branch) and assign on
difference, tracking the `changes` flag. -/
def applyKey (scr : Nat × Nat) (o : Obj) (changed : Bool) (k : String) (v : SVal) :
    Option (Obj × Bool) :=
  match pyGetattr o k with
  | some cur =>
    if pyEq v cur then some (o, changed)
    else (pySetattr scr o k v).map (fun o2 => (o2, true))
  | Option.none => (pySetattr scr o k v).map (fun o2 => (o2, true))

/-- The `set_settings` loop over a list of keys: keys absent from the
keyword arguments are skipped. -/
def applyKeys (scr : Nat × Nat) (kw : List (String × SVal)) :
    List String → Obj → Bool → Option (Obj × Bool)
  | [], o, ch => some (o, ch)
  | k :: ks, o, ch =>
    match kw.lookup k with
    | some v =>
      match applyKey scr o ch k v with
      | some (o2, ch2) => applyKeys scr kw ks o2 ch2
      | Option.none => Option.none
    | Option.none => applyKeys scr kw ks o ch

/-- `DesktopStreamer.set_settings(**kw)`: iterates over the keys of
`SETTINGS` (in table order) that occur in the keyword arguments `kw`,
assigning changed values; returns the updated object together with the
`changes` flag that decides whether the commandlines are rebuilt. -/
def set_settings (scr : Nat × Nat) (o : Obj) (kw : List (String × SVal)) :
    Option (Obj × Bool) :=
  applyKeys scr kw settingsKeys o false

/-- The settings part of `DesktopStreamer.__init__` (without the
optional load/save file round trips): defaults first, then the caller's
keyword arguments. -/
def initObj (scr : Nat × Nat) (kw : List (String × SVal)) : Option Obj :=
  match set_settings scr emptyObj SETTINGS with
  | some (o, _) =>
    match set_settings scr o kw with
    | some (o2, _) => some o2
    | Option.none => Option.none
  | Option.none => Option.none

/-- The whitespace characters of `shlex` (`' \t\r\n'`; the module also
lists `\f` and `\v` via `string.whitespace` only in posix mode — the
default `shlex.whitespace` is `' \t\r\n'`). -/
def isWS (c : Char) : Bool := c == ' ' || c == '\t' || c == '\r' || c == '\n'

/-- The quote characters of `shlex` (`'"` and `"'"`). -/
def isQuote (c : Char) : Bool := c == '"' || c.toNat == 39

/-- Lexer state of `shlex.read_token` in non-posix mode with
`whitespace_split` set: between tokens, accumulating a token, or inside
a quoted token started by the quote character `qc`. -/
inductive LexState : Type
  | ws
  | accum
  | quote (qc : Char)
deriving DecidableEq, Repr

/-- The token loop of `shlex` with `posix=False`, `whitespace_split=True`
and comments disabled — exactly the configuration of
`shlex.split(cmd, posix=False)` used by `DesktopStreamer.setup`.
Backslashes are ordinary characters, quote characters are kept in the
token, a quoted token ends at its closing quote, and an unterminated
quote raises `ValueError` (modelled by `Option.none`). -/
def lexRun : LexState → List Char → List Char → Option (List String)
  | LexState.ws, _, [] => some []
  | LexState.ws, tok, c :: rest =>
    if isWS c then lexRun LexState.ws tok rest
    else if isQuote c then lexRun (LexState.quote c) [c] rest
    else lexRun LexState.accum [c] rest
  | LexState.accum, acc, [] => some [String.mk acc]
  | LexState.accum, acc, c :: rest =>
    if isWS c then (lexRun LexState.ws [] rest).map (fun ts => String.mk acc :: ts)
    else lexRun LexState.accum (acc ++ [c]) rest
  | LexState.quote _, _, [] => Option.none
  | LexState.quote qc, acc, c :: rest =>
    if c == qc then (lexRun LexState.ws [] rest).map (fun ts => String.mk (acc ++ [c]) :: ts)
    else lexRun (LexState.quote qc) (acc ++ [c]) rest

/-- `shlex.split(s, posix=False)` as used in `DesktopStreamer.setup`. -/
def shlexSplitNonPosix (s : String) : Option (List String) :=
  lexRun LexState.ws [] s.data

/-- A string that non-posix `shlex` keeps as one whole token when it
stands between separators: non-empty, free of whitespace, and not
starting with a quote character. -/
def simpleTok (s : String) : Bool :=
  match s.data with
  | [] => false
  | c :: cs => !isWS c && !isQuote c && cs.all (fun x => !isWS x)

/-- A string free of `shlex` whitespace (enough for a fragment embedded
inside a larger token, such as the port inside the `--sout` argument). -/
def noWS (s : String) : Bool := s.data.all (fun x => !isWS x)

/-- `cmd if cmd else default`: the fallback of `setup` when no command
path was found (`None`) — the bare command name is used instead; the
empty string is likewise falsy in Python. -/
def cmdOr (c : Option String) (dflt : String) : String :=
  match c with
  | Option.none => dflt
  | some p => if p = "" then dflt else p

/-- The fixed audio part of the `avconv` template in `setup`. -/
def av_audio : String := "-f alsa -ac 2 -i pulse -acodec libmp3lame"

/-- `DesktopStreamer.setup`: builds the `avconv` and `cvlc` commandline
token lists from the settings attributes and the resolved command paths
(`commands` is the `COMMANDS` table, in order `avconv`, `cvlc`).
Reading a missing attribute (`AttributeError`) and an unterminated quote
in `shlex.split` (`ValueError`) are modelled by `Option.none`. -/
def setup (commands : Option String × Option String) (o : Obj) :
    Option (List String × List String) :=
  match o.framerate, o.res_in, o.res_out, o.audio, o.video, o.port with
  | some fr, some ri, some ro, some au, some vi, some po =>
    let av_video : String :=
      "-f x11grab -r " ++ pyStr fr ++ " -s " ++ pyStr ri ++ " -i :0.0 " ++
      "-vcodec libx264 -preset ultrafast -s " ++ pyStr ro
    let cmd_avconv : String :=
      cmdOr commands.1 "avconv" ++ " " ++ (if truthy au then av_audio else "") ++ " " ++
      (if truthy vi then av_video else "") ++ " -threads 0 -f mpegts -"
    let cmd_vlc : String :=
      cmdOr commands.2 "cvlc" ++ " " ++ "-I dummy - " ++
      ("--sout=#std\x7baccess=http,mux=ts,dst=:" ++ pyStr po ++ "\x7d")
    match shlexSplitNonPosix cmd_avconv, shlexSplitNonPosix cmd_vlc with
    | some a, some v => some (a, v)
    | _, _ => Option.none
  | _, _, _, _, _, _ => Option.none

/-- The full command-builder pipeline of `__init__` (without file I/O):
apply the defaults, apply the caller's settings, then build the two
token lists with `setup`. -/
def build (scr : Nat × Nat) (commands : Option String × Option String)
    (kw : List (String × SVal)) : Option (List String × List String) :=
  match initObj scr kw with
  | some o => setup commands o
  | Option.none => Option.none

/-- A child-process handle as the supervisor sees it: `alive` is true
while `poll()` returns `None`; the two behaviour flags say whether the
process exits in reaction to `terminate()` (SIGTERM) respectively
`kill()` (SIGKILL) during the following grace period. -/
structure Proc : Type where
  alive : Bool
  diesOnTerm : Bool
  diesOnKill : Bool
deriving DecidableEq, Repr

/-- Effect of `proc.terminate()` on the process. -/
def termProc (p : Proc) : Proc :=
  if p.diesOnTerm then { p with alive := false } else p

/-- Effect of `proc.kill()` on the process. -/
def killProc (p : Proc) : Proc :=
  if p.diesOnKill then { p with alive := false } else p

/-- The supervisor part of a `DesktopStreamer` instance: the resolved
command paths (`COMMANDS`, in order `avconv`, `cvlc`) and the two
process slots named by the `PROCESSES` table (`proc_avconv`,
`proc_vlc`); a slot is `Option.none` while the attribute has never been
set. -/
structure Streamer : Type where
  commands : Option String × Option String
  proc_avconv : Option Proc
  proc_vlc : Option Proc
deriving DecidableEq, Repr

/-- The `processes` property: the process objects of the slots that are
set, in `PROCESSES` order. -/
def processes (st : Streamer) : List Proc :=
  (match st.proc_avconv with | some p => [p] | Option.none => []) ++
  (match st.proc_vlc with | some p => [p] | Option.none => [])

/-- The `running_processes` property: the tracked processes whose
`poll()` still returns `None`. -/
def running_processes (st : Streamer) : List Proc :=
  (processes st).filter (fun p => p.alive)

/-- The slot names of the currently running processes, in `PROCESSES`
order (used to label the events of a trace). -/
def runningNames (st : Streamer) : List String :=
  (match st.proc_avconv with
   | some p => if p.alive then ["proc_avconv"] else []
   | Option.none => []) ++
  (match st.proc_vlc with
   | some p => if p.alive then ["proc_vlc"] else []
   | Option.none => [])

/-- The `missing_commands` property: the names of the `COMMANDS` table
whose resolved path is `None`, in table order. -/
def missing_commands (st : Streamer) : List String :=
  (if st.commands.1.isNone then ["avconv"] else []) ++
  (if st.commands.2.isNone then ["cvlc"] else [])

/-- Observable supervisor actions, recorded as a trace: a graceful
termination signal or a forceful kill signal to a named slot, a sleep of
the grace period, and the spawning of a process into a named slot. -/
inductive Event : Type
  | sigterm (target : String)
  | sigkill (target : String)
  | sleep (seconds : Nat)
  | spawn (target : String)
deriving DecidableEq, Repr

/-- `map(lambda proc: proc.f(), self.running_processes)`: apply a signal
to every running process and record one event per signalled slot. -/
def signalPass (f : Proc → Proc) (mk : String → Event) (st : Streamer) :
    Streamer × List Event :=
  let av := match st.proc_avconv with
    | some p => if p.alive then (some (f p), [mk "proc_avconv"]) else (some p, [])
    | Option.none => ((Option.none : Option Proc), [])
  let vl := match st.proc_vlc with
    | some p => if p.alive then (some (f p), [mk "proc_vlc"]) else (some p, [])
    | Option.none => ((Option.none : Option Proc), [])
  ({ st with proc_avconv := av.1, proc_vlc := vl.1 }, av.2 ++ vl.2)

/-- The graceful first pass of `stop` (`proc.terminate()`). -/
def termStep (st : Streamer) : Streamer × List Event :=
  signalPass termProc Event.sigterm st

/-- The forceful pass of `stop` (`proc.kill()`). -/
def killStep (st : Streamer) : Streamer × List Event :=
  signalPass killProc Event.sigkill st

/-- The `while self.running_processes` loop of `stop`, with the
`terminated` flag of the source and an explicit fuel bound on the number
of iterations (the Python loop is unbounded; the returned Bool is true
when the loop exited because no tracked process was left running, false
when the fuel ran out first). -/
def stopLoop (grace : Nat) : Nat → Bool → Streamer → Streamer × List Event × Bool
  | 0, _, st => (st, [], (running_processes st).isEmpty)
  | fuel + 1, terminated, st =>
    if (running_processes st).isEmpty then (st, [], true)
    else
      let pass := if terminated then killStep st else termStep st
      let rec_ := stopLoop grace fuel true pass.1
      (rec_.1, pass.2 ++ [Event.sleep grace] ++ rec_.2.1, rec_.2.2)

/-- `DesktopStreamer.stop(seconds)`: first pass sends `terminate()` to
every running process, every later pass sends `kill()`; each pass is
followed by `time.sleep(seconds)`; the loop re-checks
`running_processes` before every pass and exits when it is empty. -/
def stop (grace fuel : Nat) (st : Streamer) : Streamer × List Event × Bool :=
  stopLoop grace fuel false st

/-- The message of the `DesktopStreamerError` raised by `start` when
commands are missing. -/
def missingMsg (st : Streamer) : String :=
  "ERROR: The following needed commands are missing: " ++
  String.intercalate ", " (missing_commands st) ++ "."

/-- `DesktopStreamer.start()`: raises `DesktopStreamerError` (the
`MissingDependency` condition; the message is returned as
`some message`, the state and trace untouched) when `missing_commands`
is non-empty; otherwise calls `stop` first if processes are still
running, then spawns `avconv` and `cvlc` into the two slots (the fresh
OS handles are the parameters `pa`, `pv`; the pipe wiring between them
carries no further supervisor state). -/
def start (grace fuel : Nat) (pa pv : Proc) (st : Streamer) :
    Streamer × List Event × Option String :=
  if missing_commands st = [] then
    let stopped :=
      if (running_processes st).isEmpty then (st, ([] : List Event))
      else ((stop grace fuel st).1, (stop grace fuel st).2.1)
    ({ stopped.1 with proc_avconv := some pa, proc_vlc := some pv },
     stopped.2 ++ [Event.spawn "proc_avconv", Event.spawn "proc_vlc"],
     Option.none)
  else
    (st, [], some (missingMsg st))

/-- The audio-source tokens of the encoder commandline (the tokens of
`av_audio`). -/
def audioTokens : List String :=
  ["-f", "alsa", "-ac", "2", "-i", "pulse", "-acodec", "libmp3lame"]

/-- The video-source tokens of the encoder commandline for a given
framerate, input resolution and output resolution. -/
def videoTokens (fr ri ro : String) : List String :=
  ["-f", "x11grab", "-r", fr, "-s", ri, "-i", ":0.0",
   "-vcodec", "libx264", "-preset", "ultrafast", "-s", ro]

/-- The fixed trailing tokens of the encoder commandline. -/
def tailTokens : List String := ["-threads", "0", "-f", "mpegts", "-"]

/-- The full encoder argv for a command path, audio toggle and video
parameters (video enabled). -/
def avTokens (cmd : String) (au : Bool) (fr ri ro : String) : List String :=
  cmd :: ((if au then audioTokens else []) ++ videoTokens fr ri ro ++ tailTokens)

/-- The network-sink expression of the streamer commandline, bound to a
port: a single `--sout=...` token containing braces. -/
def soutToken (port : String) : String :=
  "--sout=#std\x7baccess=http,mux=ts,dst=:" ++ port ++ "\x7d"

/-- The full streamer argv for a command path and port. -/
def vlcTokens (cmd port : String) : List String :=
  [cmd, "-I", "dummy", "-", soutToken port]

/-- The settings of the worked scenario of the specification:
audio and video on, framerate 25, input resolution 1920x1080, output
resolution 1280x720, port 1312. -/
def scenarioSettings : List (String × SVal) :=
  [("audio", SVal.b true), ("video", SVal.b true), ("framerate", SVal.n 25),
   ("res_in", SVal.s "1920x1080"), ("res_out", SVal.s "1280x720"),
   ("port", SVal.n 1312)]

theorem mk_data (s : String) : String.mk s.data = s := by cases s; rfl

theorem mk_append (l1 l2 : List Char) :
    String.mk (l1 ++ l2) = String.mk l1 ++ String.mk l2 := rfl

theorem str_append_assoc (a b c : String) : a ++ b ++ c = a ++ (b ++ c) := by
  cases a; cases b; cases c
  show String.mk _ = String.mk _
  rw [List.append_assoc]

theorem noWS_all (s : String) (h : noWS s = true) : ∀ c ∈ s.data, isWS c = false := by
  simpa [noWS, List.all_eq_true] using h

theorem simpleTok_noWS (s : String) (h : simpleTok s = true) :
    ∀ c ∈ s.data, isWS c = false := by
  rcases hd : s.data with _ | ⟨c, cs⟩
  · simp
  · simp only [simpleTok, hd, Bool.and_eq_true, List.all_eq_true, Bool.not_eq_true'] at h
    intro x hx
    rcases List.mem_cons.mp hx with h1 | h2
    · exact h1 ▸ h.1.1
    · exact h.2 x h2

theorem simpleTok_append (a b : String) (ha : simpleTok a = true) (hb : noWS b = true) :
    simpleTok (a ++ b) = true := by
  rcases hd : a.data with _ | ⟨c, cs⟩
  · simp [simpleTok, hd] at ha
  · simp only [simpleTok, hd, Bool.and_eq_true, List.all_eq_true, Bool.not_eq_true'] at ha
    have hdd : (a ++ b).data = c :: (cs ++ b.data) := by
      rw [String.data_append, hd, List.cons_append]
    simp only [simpleTok, hdd, Bool.and_eq_true, List.all_eq_true, Bool.not_eq_true']
    refine ⟨⟨ha.1.1, ha.1.2⟩, ?_⟩
    intro x hx
    rcases List.mem_append.mp hx with h1 | h2
    · exact ha.2 x h1
    · exact noWS_all b hb x h2

theorem lexRun_ws_ws (tok : List Char) (c : Char) (rest : List Char) (h : isWS c = true) :
    lexRun LexState.ws tok (c :: rest) = lexRun LexState.ws tok rest := by
  simp [lexRun, h]

theorem lexRun_ws_char (tok : List Char) (c : Char) (rest : List Char) (h1 : isWS c = false)
    (h2 : isQuote c = false) :
    lexRun LexState.ws tok (c :: rest) = lexRun LexState.accum [c] rest := by
  simp [lexRun, h1, h2]

theorem lexRun_accum_ws (acc : List Char) (c : Char) (rest : List Char) (h : isWS c = true) :
    lexRun LexState.accum acc (c :: rest) =
      (lexRun LexState.ws [] rest).map (fun ts => String.mk acc :: ts) := by
  simp [lexRun, h]

theorem lexRun_accum_char (acc : List Char) (c : Char) (rest : List Char) (h : isWS c = false) :
    lexRun LexState.accum acc (c :: rest) = lexRun LexState.accum (acc ++ [c]) rest := by
  simp [lexRun, h]

theorem lexRun_accum_append (xs : List Char) (h : ∀ c ∈ xs, isWS c = false) :
    ∀ (acc rest : List Char),
    lexRun LexState.accum acc (xs ++ rest) = lexRun LexState.accum (acc ++ xs) rest := by
  induction xs with
  | nil => simp
  | cons c cs ih =>
    intro acc rest
    rw [List.cons_append, lexRun_accum_char acc c _ (h c (by simp)),
      ih (fun x hx => h x (by simp [hx])), List.append_assoc]
    rfl

theorem lexRun_ws_word (s : String) (h : simpleTok s = true) (tok rest : List Char) :
    lexRun LexState.ws tok (s.data ++ rest) = lexRun LexState.accum s.data rest := by
  rcases hd : s.data with _ | ⟨c, cs⟩
  · simp [simpleTok, hd] at h
  · simp only [simpleTok, hd, Bool.and_eq_true, List.all_eq_true, Bool.not_eq_true'] at h
    rw [List.cons_append, lexRun_ws_char tok c _ h.1.1 h.1.2,
      lexRun_accum_append cs (fun x hx => h.2 x hx) [c] rest]
    rfl

theorem shlex_single (s : String) (h : simpleTok s = true) (tok : List Char) :
    lexRun LexState.ws tok s.data = some [s] := by
  calc lexRun LexState.ws tok s.data = lexRun LexState.ws tok (s.data ++ []) := by
        rw [List.append_nil]
    _ = lexRun LexState.accum s.data [] := lexRun_ws_word s h tok []
    _ = some [s] := by simp [lexRun, mk_data]

set_option maxRecDepth 4000 in
theorem shlex_vlc (cmdV pos : String) (scv : simpleTok cmdV = true) (spo : noWS pos = true) :
    shlexSplitNonPosix (cmdV ++ " " ++ "-I dummy - " ++
      ("--sout=#std\x7baccess=http,mux=ts,dst=:" ++ pos ++ "\x7d")) =
      some (vlcTokens cmdV pos) := by
  simp only [vlcTokens, soutToken]
  generalize hS : ("--sout=#std\x7baccess=http,mux=ts,dst=:" ++ pos ++ "\x7d" : String) = S
  have hsS : simpleTok S = true :=
    hS ▸ simpleTok_append _ _ (simpleTok_append _ _ (by decide) spo) (by decide)
  have pcv := lexRun_ws_word cmdV scv
  have psS := shlex_single S hsS
  simp +decide [shlexSplitNonPosix, String.data_append, lexRun_ws_ws, lexRun_ws_char,
    lexRun_accum_ws, lexRun_accum_char, pcv, psS, mk_data, lexRun]

set_option maxRecDepth 8000 in
theorem shlex_avconv (cmdA frs ris ros : String) (au : Bool)
    (sca : simpleTok cmdA = true) (sfr : simpleTok frs = true)
    (sri : simpleTok ris = true) (sro : simpleTok ros = true) :
    shlexSplitNonPosix ((cmdA ++ " " ++ if au = true then av_audio else "") ++ " " ++
      ("-f x11grab -r " ++ frs ++ " -s " ++ ris ++ " -i :0.0 " ++
       "-vcodec libx264 -preset ultrafast -s " ++ ros) ++ " -threads 0 -f mpegts -") =
      some (avTokens cmdA au frs ris ros) := by
  have pca := lexRun_ws_word cmdA sca
  have pfr := lexRun_ws_word frs sfr
  have pri := lexRun_ws_word ris sri
  have pro := lexRun_ws_word ros sro
  cases au <;>
    simp +decide [avTokens, audioTokens, videoTokens, tailTokens, av_audio,
      shlexSplitNonPosix, String.data_append, lexRun_ws_ws, lexRun_ws_char,
      lexRun_accum_ws, lexRun_accum_char, pca, pfr, pri, pro, mk_data, lexRun]

theorem setup_tokens (cmds : Option String × Option String) (o : Obj)
    (au vi fr ri ro po : SVal)
    (hau : o.audio = some au) (hvi : o.video = some vi)
    (hfr : o.framerate = some fr) (hri : o.res_in = some ri)
    (hro : o.res_out = some ro) (hpo : o.port = some po)
    (hvit : truthy vi = true)
    (sca : simpleTok (cmdOr cmds.1 "avconv") = true)
    (scv : simpleTok (cmdOr cmds.2 "cvlc") = true)
    (sfr : simpleTok (pyStr fr) = true) (sri : simpleTok (pyStr ri) = true)
    (sro : simpleTok (pyStr ro) = true) (spo : noWS (pyStr po) = true) :
    setup cmds o =
      some (avTokens (cmdOr cmds.1 "avconv") (truthy au) (pyStr fr) (pyStr ri) (pyStr ro),
            vlcTokens (cmdOr cmds.2 "cvlc") (pyStr po)) := by
  have hA := shlex_avconv (cmdOr cmds.1 "avconv") (pyStr fr) (pyStr ri) (pyStr ro)
    (truthy au) sca sfr sri sro
  have hV := shlex_vlc (cmdOr cmds.2 "cvlc") (pyStr po) scv spo
  simp only [setup, hau, hvi, hfr, hri, hro, hpo, hvit, if_true, hA, hV]

theorem processes_length_le_two (st : Streamer) : (processes st).length ≤ 2 := by
  unfold processes
  rcases st.proc_avconv <;> rcases st.proc_vlc <;> simp

theorem running_sub_processes (st : Streamer) :
    (running_processes st).length ≤ (processes st).length :=
  List.length_filter_le _ _

theorem signalPass_events (f : Proc → Proc) (mk : String → Event) (st : Streamer) :
    (signalPass f mk st).2 = (runningNames st).map mk := by
  unfold signalPass runningNames
  rcases st.proc_avconv with _ | p
  · rcases st.proc_vlc with _ | q
    · simp
    · rcases hq : q.alive <;> simp [hq]
  · rcases st.proc_vlc with _ | q
    · rcases hp : p.alive <;> simp [hp]
    · rcases hp : p.alive <;> rcases hq : q.alive <;> simp [hp, hq]

theorem signalPass_shrink (f : Proc → Proc) (mk : String → Event) (st : Streamer) :
    ∀ n, n ∈ runningNames (signalPass f mk st).1 → n ∈ runningNames st := by
  intro n
  unfold signalPass runningNames
  rcases st.proc_avconv with _ | p
  · rcases st.proc_vlc with _ | q
    · simp
    · rcases hq : q.alive <;> simp [hq] <;> tauto
  · rcases st.proc_vlc with _ | q
    · rcases hp : p.alive <;> simp [hp] <;> tauto
    · rcases hp : p.alive <;> rcases hq : q.alive <;> simp [hp, hq] <;> tauto

theorem signalPass_commands (f : Proc → Proc) (mk : String → Event) (st : Streamer) :
    (signalPass f mk st).1.commands = st.commands := rfl

theorem stopLoop_done_empty (g : Nat) : ∀ (fuel : Nat) (t : Bool) (st : Streamer),
    (stopLoop g fuel t st).2.2 = true → running_processes (stopLoop g fuel t st).1 = [] := by
  intro fuel
  induction fuel with
  | zero =>
    intro t st h
    simp only [stopLoop] at h ⊢
    exact List.isEmpty_iff.mp h
  | succ f ih =>
    intro t st h
    by_cases hr : (running_processes st).isEmpty
    · simp [stopLoop, hr, List.isEmpty_iff.mp hr]
    · simp only [stopLoop, hr, Bool.false_eq_true, reduceIte] at h ⊢
      exact ih true _ h

theorem stopLoop_killPhase (g : Nat) : ∀ (fuel : Nat) (st : Streamer),
    (∀ n, Event.sigterm n ∉ (stopLoop g fuel true st).2.1) ∧
    (∀ n, Event.sigkill n ∈ (stopLoop g fuel true st).2.1 → n ∈ runningNames st) := by
  intro fuel
  induction fuel with
  | zero => intro st; simp [stopLoop]
  | succ f ih =>
    intro st
    by_cases hr : (running_processes st).isEmpty
    · simp [stopLoop, hr]
    · have hke : (killStep st).2 = (runningNames st).map Event.sigkill :=
        signalPass_events killProc Event.sigkill st
      constructor
      · intro n hn
        simp only [stopLoop, hr, Bool.false_eq_true, reduceIte, List.mem_append, hke] at hn
        rcases hn with (h1 | h2) | h3
        · simp at h1
        · simp at h2
        · exact (ih (killStep st).1).1 n h3
      · intro n hn
        simp only [stopLoop, hr, Bool.false_eq_true, reduceIte, List.mem_append, hke] at hn
        rcases hn with (h1 | h2) | h3
        · rcases List.mem_map.mp h1 with ⟨m, hm, he⟩
          cases he
          exact hm
        · simp at h2
        · exact signalPass_shrink killProc Event.sigkill st n ((ih (killStep st).1).2 n h3)

theorem stopLoop_commands (g : Nat) : ∀ (fuel : Nat) (t : Bool) (st : Streamer),
    (stopLoop g fuel t st).1.commands = st.commands := by
  intro fuel
  induction fuel with
  | zero => intro t st; rfl
  | succ f ih =>
    intro t st
    by_cases hr : (running_processes st).isEmpty
    · simp [stopLoop, hr]
    · cases t <;> simp only [stopLoop, hr, Bool.false_eq_true, reduceIte] <;>
        rw [ih] <;> rfl

theorem termStep_id (st : Streamer) (hterm : ∀ p ∈ processes st, p.diesOnTerm = false) :
    (termStep st).1 = st := by
  obtain ⟨cm, pa, pv⟩ := st
  unfold termStep signalPass termProc
  unfold processes at hterm
  rcases pa with _ | p
  · rcases pv with _ | q
    · simp
    · have hq := hterm q (by simp)
      rcases hh : q.alive <;> simp [hh, hq]
  · rcases pv with _ | q
    · have hp := hterm p (by simp)
      rcases hh : p.alive <;> simp [hh, hp]
    · have hp := hterm p (by simp)
      have hq := hterm q (by simp)
      rcases hh : p.alive <;> rcases hh2 : q.alive <;> simp [hh, hh2, hp, hq]

theorem killStep_kills (st : Streamer) (hkill : ∀ p ∈ processes st, p.diesOnKill = true) :
    running_processes (killStep st).1 = [] := by
  obtain ⟨cm, pa, pv⟩ := st
  unfold killStep signalPass killProc
  unfold processes at hkill
  unfold running_processes processes
  rcases pa with _ | p
  · rcases pv with _ | q
    · simp
    · have hq := hkill q (by simp)
      rcases hh : q.alive <;> simp [hh, hq]
  · rcases pv with _ | q
    · have hp := hkill p (by simp)
      rcases hh : p.alive <;> simp [hh, hp]
    · have hp := hkill p (by simp)
      have hq := hkill q (by simp)
      rcases hh : p.alive <;> rcases hh2 : q.alive <;> simp [hh, hh2, hp, hq]

theorem not_isEmpty_of_ne (l : List Proc) (h : l ≠ []) : l.isEmpty = false := by
  rcases l with _ | ⟨a, r⟩
  · exact absurd rfl h
  · rfl

theorem stopLoop_succ_false (g f : Nat) (st : Streamer)
    (h : (running_processes st).isEmpty = false) :
    stopLoop g (f + 1) false st =
      ((stopLoop g f true (termStep st).1).1,
       (termStep st).2 ++ [Event.sleep g] ++ (stopLoop g f true (termStep st).1).2.1,
       (stopLoop g f true (termStep st).1).2.2) := by
  simp [stopLoop, h]

theorem stopLoop_succ_true (g f : Nat) (st : Streamer)
    (h : (running_processes st).isEmpty = false) :
    stopLoop g (f + 1) true st =
      ((stopLoop g f true (killStep st).1).1,
       (killStep st).2 ++ [Event.sleep g] ++ (stopLoop g f true (killStep st).1).2.1,
       (stopLoop g f true (killStep st).1).2.2) := by
  simp [stopLoop, h]

theorem stop_escalation_aux (g k : Nat) (st : Streamer)
    (hrun : running_processes st ≠ [])
    (hterm : ∀ p ∈ processes st, p.diesOnTerm = false)
    (hkill : ∀ p ∈ processes st, p.diesOnKill = true) :
    (stop g (k + 3) st).2.2 = true ∧
    running_processes (stop g (k + 3) st).1 = [] ∧
    (stop g (k + 3) st).2.1 =
      (runningNames st).map Event.sigterm ++ [Event.sleep g] ++
      ((runningNames st).map Event.sigkill ++ [Event.sleep g]) := by
  have hne : (running_processes st).isEmpty = false := not_isEmpty_of_ne _ hrun
  have ht1 : (termStep st).1 = st := termStep_id st hterm
  have hte : (termStep st).2 = (runningNames st).map Event.sigterm :=
    signalPass_events termProc Event.sigterm st
  have hke : (killStep st).2 = (runningNames st).map Event.sigkill :=
    signalPass_events killProc Event.sigkill st
  have hk1 : running_processes (killStep st).1 = [] := killStep_kills st hkill
  have e1 : stop g (k + 3) st = stopLoop g ((k + 2) + 1) false st := rfl
  rw [e1, stopLoop_succ_false g (k + 2) st hne, ht1]
  rw [show (k + 2 : Nat) = (k + 1) + 1 from rfl, stopLoop_succ_true g (k + 1) st hne]
  rw [hte, hke]
  have e2 : stopLoop g (k + 1) true (killStep st).1 = ((killStep st).1, [], true) := by
    rcases hf : (k + 1 : Nat) with _ | f
    · omega
    · simp [stopLoop, hk1]
  rw [e2]
  simp [hk1]

theorem lookup_filter_keys (kw : List (String × SVal)) (k : String)
    (hk : k ∈ settingsKeys) :
    (kw.filter (fun p => decide (p.1 ∈ settingsKeys))).lookup k = kw.lookup k := by
  induction kw with
  | nil => rfl
  | cons p rest ih =>
    rcases p with ⟨k1, v1⟩
    by_cases he : k = k1
    · subst he
      simp [List.filter, List.lookup, hk]
    · have hbe : (k == k1) = false := by simp [he]
      by_cases hm : k1 ∈ settingsKeys <;>
        simp [List.filter, List.lookup, hm, hbe, ih]

theorem applyKeys_filter (scr : Nat × Nat) (kw : List (String × SVal)) :
    ∀ (ks : List String), (∀ k ∈ ks, k ∈ settingsKeys) →
    ∀ (o : Obj) (ch : Bool),
      applyKeys scr kw ks o ch =
        applyKeys scr (kw.filter (fun p => decide (p.1 ∈ settingsKeys))) ks o ch := by
  intro ks
  induction ks with
  | nil => intro _ o ch; rfl
  | cons k rest ih =>
    intro hks o ch
    have hk := hks k (by simp)
    have hrest := fun x hx => hks x (List.mem_cons_of_mem _ hx)
    simp only [applyKeys, lookup_filter_keys kw k hk]
    rcases hl : kw.lookup k with _ | v
    · exact ih hrest o ch
    · rcases ha : applyKey scr o ch k v with _ | ⟨o2, ch2⟩
      · simp only [ha]
      · simp only [ha]
        exact ih hrest o2 ch2

theorem pyEq_s_val (x : String) (w : SVal) (h : pyEq (SVal.s x) w = true) : w = SVal.s x := by
  cases w <;> simp [pyEq] at h
  simp [h]

theorem set_settings_order_aux (scr : Nat × Nat) (o : Obj) (r : String) (ri0 ro0 : SVal)
    (hri : o.res_in = some ri0) (hro : o.res_out = some ro0)
    (hnn : pyEq SVal.none ro0 = false) :
    ∃ o2 ch, set_settings scr o [("res_in", SVal.s r), ("res_out", SVal.none)] =
        some (o2, ch) ∧
      o2.res_in = some (SVal.s r) ∧ o2.res_out = some (SVal.s r) := by
  by_cases hc : pyEq (SVal.s r) ri0 = true
  · have hv : ri0 = SVal.s r := pyEq_s_val r ri0 hc
    subst hv
    refine ⟨{ o with res_out := some (SVal.s r) }, true, ?_, ?_, ?_⟩
    · simp +decide [set_settings, applyKeys, settingsKeys, SETTINGS, List.lookup, applyKey,
        pyGetattr, hri, hro, hnn, hc, pySetattr, writeRaw]
    · simpa using hri
    · simp
  · have hcf : pyEq (SVal.s r) ri0 = false := by simpa using hc
    refine ⟨{ o with res_in := some (SVal.s r), res_out := some (SVal.s r) }, true, ?_, ?_, ?_⟩
    · simp +decide [set_settings, applyKeys, settingsKeys, SETTINGS, List.lookup, applyKey,
        pyGetattr, hri, hro, hnn, hcf, pySetattr, writeRaw]
    · simp
    · simp

theorem initObj_scenario (scr : Nat × Nat) :
    initObj scr scenarioSettings =
      some ⟨some (SVal.b true), some (SVal.b true), some (SVal.s "1920x1080"),
            some (SVal.s "1280x720"), some (SVal.n 25), some (SVal.n 1312)⟩ := by
  have hdef : set_settings scr emptyObj SETTINGS =
      some (⟨some (SVal.b true), some (SVal.b true), some (SVal.s (get_screensize scr)),
             some (SVal.s (get_screensize scr)), some (SVal.n 25), some (SVal.n 1312)⟩, true) := by
    simp +decide [set_settings, applyKeys, settingsKeys, SETTINGS, applyKey, pyGetattr,
      pySetattr, writeRaw, emptyObj, pyIntCast, pyEq, List.lookup]
  unfold initObj
  rw [hdef]
  by_cases h1 : "1920x1080" = get_screensize scr <;>
    by_cases h2 : "1280x720" = get_screensize scr <;>
      simp +decide [set_settings, applyKeys, settingsKeys, SETTINGS, scenarioSettings,
        applyKey, pyGetattr, pySetattr, writeRaw, pyIntCast, pyEq, List.lookup, h1, h2]

/-- Claim C1: for every supervisor state, if at least one of the two external
executables (`avconv`, `cvlc`) has no resolved path in the command-path table
(its entry is `None`), then `start` raises the missing-dependency
`DesktopStreamerError` (returned as `some` message) and spawns no process at
all: the returned state equals the input state (no slot touched, so the
tracked-process state is unchanged) and the event trace is empty (no stop, no
spawn). -/
theorem start_missing_dependency (g fuel : Nat) (pa pv : Proc) (st : Streamer)
    (h : st.commands.1 = Option.none ∨ st.commands.2 = Option.none) :
    start g fuel pa pv st = (st, [], some (missingMsg st)) := by
  have hm : missing_commands st ≠ [] := by
    unfold missing_commands
    rcases h with h | h <;> rcases h1 : st.commands.1 <;> rcases h2 : st.commands.2 <;>
      simp_all
  simp [start, hm]

/-- Witness for C1: with the `avconv` path unresolved, `start` returns the
error and leaves the state untouched. -/
theorem start_missing_dependency_witness :
    ((⟨(Option.none, some "/usr/bin/cvlc"), Option.none, Option.none⟩ : Streamer).commands.1 =
        Option.none ∨
      (⟨(Option.none, some "/usr/bin/cvlc"), Option.none, Option.none⟩ : Streamer).commands.2 =
        Option.none) ∧
    start 2 5 ⟨true, true, true⟩ ⟨true, true, true⟩
        ⟨(Option.none, some "/usr/bin/cvlc"), Option.none, Option.none⟩ =
      (⟨(Option.none, some "/usr/bin/cvlc"), Option.none, Option.none⟩, [],
       some (missingMsg ⟨(Option.none, some "/usr/bin/cvlc"), Option.none, Option.none⟩)) :=
  ⟨Or.inl rfl, start_missing_dependency 2 5 ⟨true, true, true⟩ ⟨true, true, true⟩
    ⟨(Option.none, some "/usr/bin/cvlc"), Option.none, Option.none⟩ (Or.inl rfl)⟩

/-- Claim C2: whenever the `stop` loop exits normally (the loop condition
`while self.running_processes` became false) no tracked process is left
running; and in the scenario where processes are alive, all ignore the
graceful termination signal and all die on the forceful kill signal, `stop`
terminates (with any fuel of at least three iterations): both escalation
cycles run — a terminate pass over every running process, a sleep, a kill
pass over the same processes, a sleep — and `running_processes` is empty
afterwards. -/
theorem stop_escalation_force_kills :
    (∀ (g fuel : Nat) (t : Bool) (st : Streamer),
      (stopLoop g fuel t st).2.2 = true →
      running_processes (stopLoop g fuel t st).1 = []) ∧
    (∀ (g k : Nat) (st : Streamer),
      running_processes st ≠ [] →
      (∀ p ∈ processes st, p.diesOnTerm = false) →
      (∀ p ∈ processes st, p.diesOnKill = true) →
      (stop g (k + 3) st).2.2 = true ∧
      running_processes (stop g (k + 3) st).1 = [] ∧
      (stop g (k + 3) st).2.1 =
        (runningNames st).map Event.sigterm ++ [Event.sleep g] ++
        ((runningNames st).map Event.sigkill ++ [Event.sleep g])) :=
  ⟨fun g fuel t st h => stopLoop_done_empty g fuel t st h,
   fun g k st h1 h2 h3 => stop_escalation_aux g k st h1 h2 h3⟩

/-- Witness for C2: both processes alive, both ignore the graceful signal and
die on kill — after the terminate pass, the sleep, the kill pass and the
final sleep, nothing is left running. -/
theorem stop_escalation_force_kills_witness :
    running_processes
        ⟨(some "a", some "b"), some ⟨true, false, true⟩, some ⟨true, false, true⟩⟩ ≠ [] ∧
    ((stop 2 (0 + 3)
        ⟨(some "a", some "b"), some ⟨true, false, true⟩, some ⟨true, false, true⟩⟩).2.2 = true ∧
     running_processes (stop 2 (0 + 3)
        ⟨(some "a", some "b"), some ⟨true, false, true⟩, some ⟨true, false, true⟩⟩).1 = [] ∧
     (stop 2 (0 + 3)
        ⟨(some "a", some "b"), some ⟨true, false, true⟩, some ⟨true, false, true⟩⟩).2.1 =
       (runningNames
          ⟨(some "a", some "b"), some ⟨true, false, true⟩,
           some ⟨true, false, true⟩⟩).map Event.sigterm ++ [Event.sleep 2] ++
       ((runningNames
          ⟨(some "a", some "b"), some ⟨true, false, true⟩,
           some ⟨true, false, true⟩⟩).map Event.sigkill ++ [Event.sleep 2])) :=
  ⟨by decide, stop_escalation_force_kills.2 2 0
    ⟨(some "a", some "b"), some ⟨true, false, true⟩, some ⟨true, false, true⟩⟩
    (by decide) (by decide) (by decide)⟩

/-- Claim C3: within a single `stop` call on a state with running processes,
the trace starts with the graceful first pass — one termination signal to
every live process, then the sleep of the grace period — and only the
remainder of the trace may hold kill signals: no further graceful signal
occurs there, and every forceful kill targets a process still alive on the
re-check after the first pass. -/
theorem stop_graceful_pass_precedes_kill (g fuel : Nat) (st : Streamer)
    (hrun : running_processes st ≠ []) (hfuel : 1 ≤ fuel) :
    ∃ rest, (stop g fuel st).2.1 =
        (runningNames st).map Event.sigterm ++ [Event.sleep g] ++ rest ∧
      (∀ n, Event.sigterm n ∉ rest) ∧
      (∀ n, Event.sigkill n ∈ rest → n ∈ runningNames (termStep st).1) := by
  obtain ⟨f, rfl⟩ : ∃ f, fuel = f + 1 := ⟨fuel - 1, (Nat.succ_pred_eq_of_pos hfuel).symm⟩
  have hne : (running_processes st).isEmpty = false := not_isEmpty_of_ne _ hrun
  have hte : (termStep st).2 = (runningNames st).map Event.sigterm :=
    signalPass_events termProc Event.sigterm st
  refine ⟨(stopLoop g f true (termStep st).1).2.1, ?_,
    (stopLoop_killPhase g f (termStep st).1).1, (stopLoop_killPhase g f (termStep st).1).2⟩
  rw [show stop g (f + 1) st = stopLoop g (f + 1) false st from rfl,
    stopLoop_succ_false g f st hne, hte]

/-- Witness for C3: two live processes that survive the graceful signal; the
trace of `stop` opens with both termination signals and the sleep, and the
kills come after. -/
theorem stop_graceful_pass_precedes_kill_witness :
    running_processes
        ⟨(some "a", some "b"), some ⟨true, false, true⟩, some ⟨true, false, true⟩⟩ ≠ [] ∧
    1 ≤ 2 ∧
    (∃ rest, (stop 2 2
        ⟨(some "a", some "b"), some ⟨true, false, true⟩, some ⟨true, false, true⟩⟩).2.1 =
        (runningNames
          ⟨(some "a", some "b"), some ⟨true, false, true⟩,
           some ⟨true, false, true⟩⟩).map Event.sigterm ++ [Event.sleep 2] ++ rest ∧
      (∀ n, Event.sigterm n ∉ rest) ∧
      (∀ n, Event.sigkill n ∈ rest →
        n ∈ runningNames (termStep
          ⟨(some "a", some "b"), some ⟨true, false, true⟩, some ⟨true, false, true⟩⟩).1)) :=
  ⟨by decide, by decide, stop_graceful_pass_precedes_kill 2 2
    ⟨(some "a", some "b"), some ⟨true, false, true⟩, some ⟨true, false, true⟩⟩
    (by decide) (by decide)⟩

/-- Claim C4: the command builder is a pure function of the settings, the
resolved command paths and the detected screen size: two runs of the full
builder pipeline (`__init__` settings application followed by `setup`) on
identical inputs yield the identical pair of argument-vectors.  Purity is
structural in this embedding — `build` has no state to mutate and its result
contains only the two token lists. -/
theorem command_builder_deterministic (scr1 scr2 : Nat × Nat)
    (c1 c2 : Option String × Option String) (kw1 kw2 : List (String × SVal))
    (h1 : scr1 = scr2) (h2 : c1 = c2) (h3 : kw1 = kw2) :
    build scr1 c1 kw1 = build scr2 c2 kw2 := by
  subst h1
  subst h2
  subst h3
  rfl

/-- Witness for C4: two runs of the builder on the scenario settings agree. -/
theorem command_builder_deterministic_witness :
    build (1366, 768) (some "/usr/bin/avconv", some "/usr/bin/cvlc") scenarioSettings =
      build (1366, 768) (some "/usr/bin/avconv", some "/usr/bin/cvlc") scenarioSettings :=
  command_builder_deterministic (1366, 768) (1366, 768)
    (some "/usr/bin/avconv", some "/usr/bin/cvlc") (some "/usr/bin/avconv", some "/usr/bin/cvlc")
    scenarioSettings scenarioSettings rfl rfl rfl

/-- Claim C5: for every settings object, assigning `None` to `res_out` (the
`__setattr__` path taken whenever output resolution is unset, in particular by
the defaults pass of the builder pipeline) stores the current `res_in` value
instead, so output resolution equals input resolution; consequently, whenever
video capture is on, the encoder argv produced by `setup` carries the `res_in`
string in both `-s` positions — the output-scale token equals the input
resolution.  The tokenisation side conditions (`simpleTok`, `noWS`) ask the
formatted values to be whitespace-free words, as every `"WxH"` resolution,
framerate and port is. -/
theorem res_out_unset_defaults_to_res_in (scr : Nat × Nat) (o : Obj) (v : SVal)
    (hri : o.res_in = some v) :
    ∃ o2, pySetattr scr o "res_out" SVal.none = some o2 ∧
      o2.res_out = some v ∧ o2.res_in = some v ∧
      (∀ (cmds : Option String × Option String) (au vi fr po : SVal),
        o2.audio = some au → o2.video = some vi → o2.framerate = some fr →
        o2.port = some po → truthy vi = true →
        simpleTok (cmdOr cmds.1 "avconv") = true → simpleTok (cmdOr cmds.2 "cvlc") = true →
        simpleTok (pyStr fr) = true → simpleTok (pyStr v) = true → noWS (pyStr po) = true →
        setup cmds o2 =
          some (avTokens (cmdOr cmds.1 "avconv") (truthy au) (pyStr fr) (pyStr v) (pyStr v),
                vlcTokens (cmdOr cmds.2 "cvlc") (pyStr po))) := by
  refine ⟨{ o with res_out := some v }, ?_, by simp, by simpa using hri, ?_⟩
  · simp +decide [pySetattr, pyGetattr, hri]
  · intro cmds au vi fr po hau hvi hfr hpo hvit sca scv sfr sv spo
    exact setup_tokens cmds _ au vi fr v v po (by simpa using hau) (by simpa using hvi)
      (by simpa using hfr) (by simpa using hri) (by simp) (by simpa using hpo)
      hvit sca scv sfr sv sv spo

/-- Witness for C5: a concrete object whose `res_in` is `"1920x1080"`;
setting `res_out` to `None` copies it, and the encoder argv repeats it at
both `-s` positions. -/
theorem res_out_unset_defaults_to_res_in_witness :
    (⟨some (SVal.b true), some (SVal.b true), some (SVal.s "1920x1080"),
      some (SVal.s "1920x1080"), some (SVal.n 25), some (SVal.n 1312)⟩ : Obj).res_in =
      some (SVal.s "1920x1080") ∧
    (∃ o2, pySetattr (1366, 768)
        ⟨some (SVal.b true), some (SVal.b true), some (SVal.s "1920x1080"),
         some (SVal.s "1920x1080"), some (SVal.n 25), some (SVal.n 1312)⟩
        "res_out" SVal.none = some o2 ∧
      o2.res_out = some (SVal.s "1920x1080") ∧ o2.res_in = some (SVal.s "1920x1080") ∧
      (∀ (cmds : Option String × Option String) (au vi fr po : SVal),
        o2.audio = some au → o2.video = some vi → o2.framerate = some fr →
        o2.port = some po → truthy vi = true →
        simpleTok (cmdOr cmds.1 "avconv") = true → simpleTok (cmdOr cmds.2 "cvlc") = true →
        simpleTok (pyStr fr) = true → simpleTok (pyStr (SVal.s "1920x1080")) = true →
        noWS (pyStr po) = true →
        setup cmds o2 =
          some (avTokens (cmdOr cmds.1 "avconv") (truthy au) (pyStr fr)
                  (pyStr (SVal.s "1920x1080")) (pyStr (SVal.s "1920x1080")),
                vlcTokens (cmdOr cmds.2 "cvlc") (pyStr po)))) :=
  ⟨rfl, res_out_unset_defaults_to_res_in (1366, 768)
    ⟨some (SVal.b true), some (SVal.b true), some (SVal.s "1920x1080"),
     some (SVal.s "1920x1080"), some (SVal.n 25), some (SVal.n 1312)⟩
    (SVal.s "1920x1080") rfl⟩

/-- Claim C6: assigning `None` to `res_in` (the `__setattr__` path taken
whenever input resolution is unset) stores the detected screen size instead,
formatted by `get_screensize` as the `"<width>x<height>"` string — the second
conjunct spells the format out. -/
theorem res_in_unset_uses_screensize (scr : Nat × Nat) (o : Obj) :
    pySetattr scr o "res_in" SVal.none =
      some { o with res_in := some (SVal.s (get_screensize scr)) } ∧
    get_screensize scr = toString scr.1 ++ "x" ++ toString scr.2 := by
  constructor
  · simp +decide [pySetattr]
  · rfl

/-- Claim C7: for the scenario settings (audio on, video on, framerate 25,
input resolution 1920x1080, output resolution 1280x720, port 1312) and any
detected screen size, the builder pipeline produces an encoder argv holding
the audio-source tokens and the video-source tokens with `-s 1920x1080`
(input) and `-s 1280x720` (output), and a streamer argv whose network sink
bound to port 1312 — the brace-carrying `--sout=...` expression — survives
the non-posix tokenisation as one single uncorrupted token. -/
theorem scenario_commandlines (scr : Nat × Nat) (cmds : Option String × Option String)
    (sca : simpleTok (cmdOr cmds.1 "avconv") = true)
    (scv : simpleTok (cmdOr cmds.2 "cvlc") = true) :
    ∃ o, initObj scr scenarioSettings = some o ∧
      setup cmds o =
        some (avTokens (cmdOr cmds.1 "avconv") true "25" "1920x1080" "1280x720",
              vlcTokens (cmdOr cmds.2 "cvlc") "1312") ∧
      soutToken "1312" ∈ vlcTokens (cmdOr cmds.2 "cvlc") "1312" := by
  refine ⟨⟨some (SVal.b true), some (SVal.b true), some (SVal.s "1920x1080"),
    some (SVal.s "1280x720"), some (SVal.n 25), some (SVal.n 1312)⟩,
    initObj_scenario scr, ?_, by simp [vlcTokens]⟩
  have h := setup_tokens cmds
    ⟨some (SVal.b true), some (SVal.b true), some (SVal.s "1920x1080"),
     some (SVal.s "1280x720"), some (SVal.n 25), some (SVal.n 1312)⟩
    (SVal.b true) (SVal.b true) (SVal.n 25) (SVal.s "1920x1080")
    (SVal.s "1280x720") (SVal.n 1312) rfl rfl rfl rfl rfl rfl (by decide) sca scv
    (by decide) (by decide) (by decide) (by decide)
  rw [h, show pyStr (SVal.n 25) = "25" from rfl,
    show pyStr (SVal.s "1920x1080") = "1920x1080" from rfl,
    show pyStr (SVal.s "1280x720") = "1280x720" from rfl,
    show pyStr (SVal.n 1312) = "1312" from rfl,
    show truthy (SVal.b true) = true from rfl]

/-- Witness for C7: concrete resolved command paths. -/
theorem scenario_commandlines_witness :
    simpleTok (cmdOr (some "/usr/bin/avconv", some "/usr/bin/cvlc").1 "avconv") = true ∧
    simpleTok (cmdOr (some "/usr/bin/avconv", some "/usr/bin/cvlc").2 "cvlc") = true ∧
    (∃ o, initObj (1366, 768) scenarioSettings = some o ∧
      setup (some "/usr/bin/avconv", some "/usr/bin/cvlc") o =
        some (avTokens (cmdOr (some "/usr/bin/avconv", some "/usr/bin/cvlc").1 "avconv")
                true "25" "1920x1080" "1280x720",
              vlcTokens (cmdOr (some "/usr/bin/avconv", some "/usr/bin/cvlc").2 "cvlc") "1312") ∧
      soutToken "1312" ∈
        vlcTokens (cmdOr (some "/usr/bin/avconv", some "/usr/bin/cvlc").2 "cvlc") "1312") :=
  ⟨by decide, by decide, scenario_commandlines (1366, 768)
    (some "/usr/bin/avconv", some "/usr/bin/cvlc") (by decide) (by decide)⟩

theorem start_slots (g fuel : Nat) (pa pv : Proc) (st : Streamer)
    (h : missing_commands st = []) :
    (start g fuel pa pv st).1.proc_avconv = some pa ∧
    (start g fuel pa pv st).1.proc_vlc = some pv := by
  by_cases hr : (running_processes st).isEmpty <;> simp [start, h, hr]

/-- Claim C8: when no command is missing, a `start` on a state with running
processes first performs the full `stop` (its trace precedes the two spawn
events); and after a second `start` the two slots hold exactly the two fresh
process handles, so the supervisor never tracks more than the two slots —
both the tracked list and the running list have length at most two. -/
theorem start_stops_before_spawn (g fuel : Nat) (pa1 pv1 pa2 pv2 : Proc) (st : Streamer)
    (hcmd : missing_commands st = []) :
    (running_processes st ≠ [] →
      (start g fuel pa1 pv1 st).2.1 =
        (stop g fuel st).2.1 ++ [Event.spawn "proc_avconv", Event.spawn "proc_vlc"]) ∧
    (start g fuel pa2 pv2 (start g fuel pa1 pv1 st).1).1.proc_avconv = some pa2 ∧
    (start g fuel pa2 pv2 (start g fuel pa1 pv1 st).1).1.proc_vlc = some pv2 ∧
    (processes (start g fuel pa2 pv2 (start g fuel pa1 pv1 st).1).1).length ≤ 2 ∧
    (running_processes (start g fuel pa2 pv2 (start g fuel pa1 pv1 st).1).1).length ≤ 2 := by
  have hcomm : (start g fuel pa1 pv1 st).1.commands = st.commands := by
    by_cases hr : (running_processes st).isEmpty <;>
      simp [start, hcmd, hr, stop, stopLoop_commands]
  have hm1 : missing_commands (start g fuel pa1 pv1 st).1 = [] := by
    unfold missing_commands at hcmd ⊢
    rw [hcomm]
    exact hcmd
  refine ⟨?_, ?_, ?_, processes_length_le_two _,
    le_trans (running_sub_processes _) (processes_length_le_two _)⟩
  · intro hrun
    have hne := not_isEmpty_of_ne _ hrun
    simp [start, hcmd, hne]
  · exact (start_slots g fuel pa2 pv2 _ hm1).1
  · exact (start_slots g fuel pa2 pv2 _ hm1).2

/-- Witness for C8: both commands resolved, both slots running; the first
`start` stops before spawning and the second leaves exactly the fresh pair. -/
theorem start_stops_before_spawn_witness :
    missing_commands
      ⟨(some "/usr/bin/avconv", some "/usr/bin/cvlc"),
       some ⟨true, true, true⟩, some ⟨true, true, true⟩⟩ = [] ∧
    ((running_processes
        ⟨(some "/usr/bin/avconv", some "/usr/bin/cvlc"),
         some ⟨true, true, true⟩, some ⟨true, true, true⟩⟩ ≠ [] →
      (start 2 5 ⟨true, true, true⟩ ⟨true, true, true⟩
        ⟨(some "/usr/bin/avconv", some "/usr/bin/cvlc"),
         some ⟨true, true, true⟩, some ⟨true, true, true⟩⟩).2.1 =
        (stop 2 5 ⟨(some "/usr/bin/avconv", some "/usr/bin/cvlc"),
         some ⟨true, true, true⟩, some ⟨true, true, true⟩⟩).2.1 ++
          [Event.spawn "proc_avconv", Event.spawn "proc_vlc"]) ∧
    (start 2 5 ⟨false, true, true⟩ ⟨false, true, true⟩
      (start 2 5 ⟨true, true, true⟩ ⟨true, true, true⟩
        ⟨(some "/usr/bin/avconv", some "/usr/bin/cvlc"),
         some ⟨true, true, true⟩, some ⟨true, true, true⟩⟩).1).1.proc_avconv =
      some ⟨false, true, true⟩ ∧
    (start 2 5 ⟨false, true, true⟩ ⟨false, true, true⟩
      (start 2 5 ⟨true, true, true⟩ ⟨true, true, true⟩
        ⟨(some "/usr/bin/avconv", some "/usr/bin/cvlc"),
         some ⟨true, true, true⟩, some ⟨true, true, true⟩⟩).1).1.proc_vlc =
      some ⟨false, true, true⟩ ∧
    (processes (start 2 5 ⟨false, true, true⟩ ⟨false, true, true⟩
      (start 2 5 ⟨true, true, true⟩ ⟨true, true, true⟩
        ⟨(some "/usr/bin/avconv", some "/usr/bin/cvlc"),
         some ⟨true, true, true⟩, some ⟨true, true, true⟩⟩).1).1).length ≤ 2 ∧
    (running_processes (start 2 5 ⟨false, true, true⟩ ⟨false, true, true⟩
      (start 2 5 ⟨true, true, true⟩ ⟨true, true, true⟩
        ⟨(some "/usr/bin/avconv", some "/usr/bin/cvlc"),
         some ⟨true, true, true⟩, some ⟨true, true, true⟩⟩).1).1).length ≤ 2) :=
  ⟨by decide, start_stops_before_spawn 2 5 ⟨true, true, true⟩ ⟨true, true, true⟩
    ⟨false, true, true⟩ ⟨false, true, true⟩
    ⟨(some "/usr/bin/avconv", some "/usr/bin/cvlc"),
     some ⟨true, true, true⟩, some ⟨true, true, true⟩⟩ (by decide)⟩

/-- Claim C9: `stop` on an idle supervisor (no tracked process running) is a
no-op: the state is returned unchanged, the event trace is empty (no signal
and no sleep), and the loop exits immediately. -/
theorem stop_idle_noop (g fuel : Nat) (st : Streamer)
    (h : running_processes st = []) :
    stop g fuel st = (st, [], true) := by
  cases fuel with
  | zero => simp [stop, stopLoop, h]
  | succ f => simp [stop, stopLoop, h]

/-- Witness for C9: a supervisor whose only tracked process has exited. -/
theorem stop_idle_noop_witness :
    running_processes
      ⟨(some "/usr/bin/avconv", some "/usr/bin/cvlc"),
       some ⟨false, true, true⟩, Option.none⟩ = [] ∧
    stop 2 5 ⟨(some "/usr/bin/avconv", some "/usr/bin/cvlc"),
       some ⟨false, true, true⟩, Option.none⟩ =
      (⟨(some "/usr/bin/avconv", some "/usr/bin/cvlc"),
        some ⟨false, true, true⟩, Option.none⟩, [], true) :=
  ⟨by decide, stop_idle_noop 2 5
    ⟨(some "/usr/bin/avconv", some "/usr/bin/cvlc"),
     some ⟨false, true, true⟩, Option.none⟩ (by decide)⟩

/-- Claim C10: `set_settings` applies exactly the keys of the `SETTINGS`
table — filtering the keyword arguments down to those keys changes nothing,
so any other key is silently ignored (and, the object having only the six
settings attributes, creates none); and the applied keys follow `SETTINGS`
order: supplying `res_in` together with an unset (`None`) `res_out` assigns
`res_in` first, so the `res_out` default copies the newly supplied
`res_in`. -/
theorem set_settings_known_keys_in_order :
    (∀ (scr : Nat × Nat) (o : Obj) (kw : List (String × SVal)),
      set_settings scr o kw =
        set_settings scr o (kw.filter (fun p => decide (p.1 ∈ settingsKeys)))) ∧
    (∀ (scr : Nat × Nat) (o : Obj) (r : String) (ri0 ro0 : SVal),
      o.res_in = some ri0 → o.res_out = some ro0 → pyEq SVal.none ro0 = false →
      ∃ o2 ch, set_settings scr o [("res_in", SVal.s r), ("res_out", SVal.none)] =
          some (o2, ch) ∧
        o2.res_in = some (SVal.s r) ∧ o2.res_out = some (SVal.s r)) :=
  ⟨fun scr o kw => applyKeys_filter scr kw settingsKeys (fun k hk => hk) o false,
   fun scr o r ri0 ro0 h1 h2 h3 => set_settings_order_aux scr o r ri0 ro0 h1 h2 h3⟩

/-- Witness for C10: an unknown key `bogus` is ignored, and supplying
`res_in` together with `res_out = None` makes both resolutions the new
`res_in`. -/
theorem set_settings_known_keys_in_order_witness :
    (set_settings (1366, 768)
        ⟨some (SVal.b true), some (SVal.b true), some (SVal.s "800x600"),
         some (SVal.s "800x600"), some (SVal.n 25), some (SVal.n 1312)⟩
        [("bogus", SVal.n 7), ("audio", SVal.b false)] =
      set_settings (1366, 768)
        ⟨some (SVal.b true), some (SVal.b true), some (SVal.s "800x600"),
         some (SVal.s "800x600"), some (SVal.n 25), some (SVal.n 1312)⟩
        ([("bogus", SVal.n 7), ("audio", SVal.b false)].filter
          (fun p => decide (p.1 ∈ settingsKeys)))) ∧
    ((⟨some (SVal.b true), some (SVal.b true), some (SVal.s "800x600"),
       some (SVal.s "800x600"), some (SVal.n 25), some (SVal.n 1312)⟩ : Obj).res_in =
        some (SVal.s "800x600") ∧
     (⟨some (SVal.b true), some (SVal.b true), some (SVal.s "800x600"),
       some (SVal.s "800x600"), some (SVal.n 25), some (SVal.n 1312)⟩ : Obj).res_out =
        some (SVal.s "800x600") ∧
     pyEq SVal.none (SVal.s "800x600") = false) ∧
    (∃ o2 ch, set_settings (1366, 768)
        ⟨some (SVal.b true), some (SVal.b true), some (SVal.s "800x600"),
         some (SVal.s "800x600"), some (SVal.n 25), some (SVal.n 1312)⟩
        [("res_in", SVal.s "1024x768"), ("res_out", SVal.none)] = some (o2, ch) ∧
      o2.res_in = some (SVal.s "1024x768") ∧ o2.res_out = some (SVal.s "1024x768")) :=
  ⟨set_settings_known_keys_in_order.1 (1366, 768)
    ⟨some (SVal.b true), some (SVal.b true), some (SVal.s "800x600"),
     some (SVal.s "800x600"), some (SVal.n 25), some (SVal.n 1312)⟩
    [("bogus", SVal.n 7), ("audio", SVal.b false)],
   ⟨rfl, rfl, by decide⟩,
   set_settings_known_keys_in_order.2 (1366, 768)
    ⟨some (SVal.b true), some (SVal.b true), some (SVal.s "800x600"),
     some (SVal.s "800x600"), some (SVal.n 25), some (SVal.n 1312)⟩
    "1024x768" (SVal.s "800x600") (SVal.s "800x600") rfl rfl (by decide)⟩
